import Mathlib

/-!
Shallow embedding of the narrative-composition and multi-format rendering core
of `Atas.py` (committee meeting-minutes generator), together with proofs about
the claims of its specification.

Conventions of the embedding:
* Python `datetime.date` objects become the `PyDate` structure; the invariant
  enforced by the Python `date` constructor (`MINYEAR = 1`, months 1..12, day
  within the month) is the predicate `PyDate.Valid`.  A function that in Python
  builds a `date` from raw components is modelled as returning the raw triple,
  and `PyDate.Valid` of the result states exactly whether the Python
  constructor would have succeeded.
* `date.fromisoformat` is modelled for the `YYYY-MM-DD` shape that the
  application's `<input type="date">` produces; any other string is a parse
  failure (`none`), as it is in Python.
* Python dicts holding the meeting row and the scenario rows become structures
  with `Option` fields (`none` = key absent); `dict.get(k, default)` becomes
  `Option.getD`, and a bare `d[k]` access on a missing key becomes an
  `Except.error` (Python `KeyError`).
* The global `state.config` mapping is passed explicitly as the `Config`
  record; `state.config.get(k, default)` becomes `Option.getD` on its fields.
* `STATIC_DIR` (a constant fixed at process start from the install path) is
  passed as an explicit `staticDir : String` argument.
* Note: line 1311 of the source has unescaped inner double quotes in the `p0`
  string (`elabora o "Relatório de Análise de Investimentos IPAJM"`), which is
  a Python syntax slip; the evident intent — the quotes are literal text of
  the sentence — is what is embedded here.
-/

set_option maxRecDepth 20000

namespace Atas

/-- Python `datetime.date` as a raw (year, month, day) triple. -/
structure PyDate where
  year : Int
  month : Nat
  day : Nat
deriving DecidableEq, Repr

/-- Gregorian leap-year rule, as used by Python's `datetime` module. -/
def isLeap (y : Int) : Bool :=
  (y % 4 == 0 && y % 100 != 0) || y % 400 == 0

/-- Number of days of month `m` of year `y` (months 1..12). -/
def daysInMonth (y : Int) (m : Nat) : Nat :=
  if m = 2 then (if isLeap y then 29 else 28)
  else if m = 4 ∨ m = 6 ∨ m = 9 ∨ m = 11 then 30
  else 31

/-- The invariant of Python `date` objects: `date(y, m, d)` succeeds exactly
when `MINYEAR ≤ y ≤ MAXYEAR`, `1 ≤ m ≤ 12` and `1 ≤ d ≤ daysInMonth y m`. -/
def PyDate.Valid (d : PyDate) : Prop :=
  1 ≤ d.year ∧ d.year ≤ 9999 ∧ 1 ≤ d.month ∧ d.month ≤ 12 ∧
    1 ≤ d.day ∧ d.day ≤ daysInMonth d.year d.month

instance (d : PyDate) : Decidable d.Valid := by
  unfold PyDate.Valid; infer_instance

/-- Fixed roster member 1 (`PARTICIPANTES[0]`). -/
def participante1 : String := "Albert Iglésia Correa dos Santos Júnior"

/-- Fixed roster member 2 (`PARTICIPANTES[1]`). -/
def participante2 : String := "Lucas José das Neves Rodrigues"

/-- Fixed roster member 3 (`PARTICIPANTES[2]`). -/
def participante3 : String := "Mariana Schneider Viana"

/-- Fixed roster member 4 (`PARTICIPANTES[3]`). -/
def participante4 : String := "Shirlene Pires Mesquita"

/-- Fixed roster member 5 (`PARTICIPANTES[4]`). -/
def participante5 : String := "Tatiana Gasparini Silva Stelzer"

/-- The fixed five-member roster, in source order (`PARTICIPANTES`). -/
def PARTICIPANTES : List String :=
  [participante1, participante2, participante3, participante4, participante5]

/-- The fixed role string (`CARGO`). -/
def CARGO : String := "Membro do Comitê de Investimentos"

/-- The fixed feminine-honorific membership set (`PARTICIPANTES_MULHERES`,
a Python `set`; modelled as a list, membership via `∈`). -/
def PARTICIPANTES_MULHERES : List String :=
  ["Shirlene Pires Mesquita", "Mariana Schneider Viana",
   "Tatiana Gasparini Silva Stelzer"]

/-- Two-digit zero padding, as produced by `strftime` fields `%d` / `%m`. -/
def pad02 (n : Nat) : String :=
  if n < 10 then "0" ++ toString n else toString n

/-- Python `f"{n:03d}"` for a non-negative `n`: zero-pad to at least 3 digits. -/
def format03d (n : Nat) : String :=
  if n < 10 then "00" ++ toString n
  else if n < 100 then "0" ++ toString n
  else toString n

/-- `ptbr_date`: `d.strftime("%d/%m/%Y")`. -/
def ptbr_date (d : PyDate) : String :=
  pad02 d.day ++ "/" ++ pad02 d.month ++ "/" ++ toString d.year

/-- The fixed 12-entry Portuguese month-name table of `mes_ano_pt`
(`nomes[m]`; months outside 1..12 never reach it from a `date` object). -/
def mes_nome (m : Nat) : String :=
  match m with
  | 1 => "janeiro" | 2 => "fevereiro" | 3 => "março" | 4 => "abril"
  | 5 => "maio" | 6 => "junho" | 7 => "julho" | 8 => "agosto"
  | 9 => "setembro" | 10 => "outubro" | 11 => "novembro" | 12 => "dezembro"
  | _ => ""

/-- `mes_ano_pt`: `f"{nomes[d.month]} de {d.year}"`. -/
def mes_ano_pt (d : PyDate) : String :=
  mes_nome d.month ++ " de " ++ toString d.year

/-- `menos_dois_meses`: `m = d.month - 2; if m <= 0: m += 12; y -= 1;
dia = min(d.day, 28); return date(y, m, dia)`.  The returned triple is the
argument of the Python `date` constructor; `PyDate.Valid` of the result says
whether that constructor succeeds. -/
def menos_dois_meses (d : PyDate) : PyDate :=
  let m : Int := (d.month : Int) - 2
  let y : Int := d.year
  let p := if m ≤ 0 then (m + 12, y - 1) else (m, y)
  let dia := min d.day 28
  ⟨p.2, p.1.toNat, dia⟩

/-- `_prefixo_genero`: `"A Sra." if nome in PARTICIPANTES_MULHERES else "O Sr."`. -/
def _prefixo_genero (nome : String) : String :=
  if PARTICIPANTES_MULHERES.contains nome then "A Sra." else "O Sr."

/-- `numero_sessao_fmt`: `f"{numero:03d}/{ano}"`. -/
def numero_sessao_fmt (numero : Nat) (ano : Int) : String :=
  format03d numero ++ "/" ++ toString ano

/-- The characters Python `str.strip()` removes (ASCII whitespace; the
application's fields never contain the rarer Unicode space characters). -/
def isPySpace (c : Char) : Bool :=
  c == ' ' || c == '\t' || c == '\n' || c == '\r' || c == '\x0b' || c == '\x0c'

/-- Python `str.strip()`: drop leading and trailing whitespace. -/
def pyStrip (s : String) : String :=
  ⟨((s.data.dropWhile isPySpace).reverse.dropWhile isPySpace).reverse⟩

/-- Python `str.join`: `sep.join(xs)`. -/
def pyJoin (sep : String) : List String → String
  | [] => ""
  | [x] => x
  | x :: y :: xs => x ++ sep ++ pyJoin sep (y :: xs)

/-- Decimal digit list to number, for the `fromisoformat` model. -/
def digitsToNat? (cs : List Char) : Option Nat :=
  if cs.all Char.isDigit then
    some (cs.foldl (fun a c => a * 10 + (c.toNat - 48)) 0)
  else none

/-- `date.fromisoformat` for the `YYYY-MM-DD` shape produced by the
application's date input; every other string raises `ValueError` (`none`).
The parsed triple must satisfy the `date` invariant. -/
def date_fromisoformat (s : String) : Option PyDate :=
  match s.data with
  | [y1, y2, y3, y4, s1, m1, m2, s2, d1, d2] =>
    if s1 = '-' ∧ s2 = '-' then
      match digitsToNat? [y1, y2, y3, y4], digitsToNat? [m1, m2],
          digitsToNat? [d1, d2] with
      | some y, some m, some dd =>
        if (PyDate.mk (y : Int) m dd).Valid then some ⟨(y : Int), m, dd⟩
        else none
      | _, _, _ => none
    else none
  | _ => none

/-- One row of the `scenario` table: `{"text": ..., "topic": ...}`. -/
structure ScenarioRow where
  text : String
  topic : String
deriving DecidableEq, Repr

/-- The scenario dict keyed by participant name (`UNIQUE(participant)`),
modelled as an association list. -/
abbrev Scenarios := List (String × ScenarioRow)

/-- `scenarios.get(nome, {"text": "", "topic": ""})`. -/
def scenarioGet (scenarios : Scenarios) (nome : String) : ScenarioRow :=
  (scenarios.lookup nome).getD ⟨"", ""⟩

/-- The current `meeting` row as a dict; `none` = key absent.  The export
endpoints use it as `meeting = dict(meeting_row) if meeting_row else {}`. -/
structure Meeting where
  numero : Option Nat
  ano : Option Int
  data : Option String
  hora : Option String
  local_ : Option String
  lavrador : Option String
deriving DecidableEq, Repr

/-- The `state.config` mapping restricted to the keys composition reads:
the two free-text items and the four summary parameters, each with its
stored-value / default layering (`none` = key absent). -/
structure Config where
  current_item2 : Option String
  item2_default : Option String
  current_assuntos : Option String
  assuntos_default : Option String
  resumo_rentab : Option String
  resumo_difpp : Option String
  resumo_posicao : Option String
  resumo_risco : Option String
deriving DecidableEq, Repr

/-- The `ORDINAIS.get(day, str(day))` lookup inside `item1_single_paragraph`:
fixed table 1..31, everything else falls back to the numeral. -/
def ORDINAIS_get (n : Nat) : String :=
  match n with
  | 1 => "primeiro" | 2 => "segundo" | 3 => "terceiro" | 4 => "quarto"
  | 5 => "quinto" | 6 => "sexto" | 7 => "sétimo" | 8 => "oitavo"
  | 9 => "nono" | 10 => "décimo" | 11 => "décimo primeiro"
  | 12 => "décimo segundo" | 13 => "décimo terceiro" | 14 => "décimo quarto"
  | 15 => "décimo quinto" | 16 => "décimo sexto" | 17 => "décimo sétimo"
  | 18 => "décimo oitavo" | 19 => "décimo nono" | 20 => "vigésimo"
  | 21 => "vigésimo primeiro" | 22 => "vigésimo segundo"
  | 23 => "vigésimo terceiro" | 24 => "vigésimo quarto"
  | 25 => "vigésimo quinto" | 26 => "vigésimo sexto"
  | 27 => "vigésimo sétimo" | 28 => "vigésimo oitavo"
  | 29 => "vigésimo nono" | 30 => "trigésimo" | 31 => "trigésimo primeiro"
  | _ => toString n

/-- The opening template sentence of the item-1 paragraph
(`mes_ano_pt(d).split(' de ')[0]` is the bare month name). -/
def item1_intro (d : PyDate) (hora loc : String) (numero : Nat) : String :=
  "No " ++ ORDINAIS_get d.day ++ " dia do mês de " ++ mes_nome d.month ++
  " do ano de " ++ toString d.year ++ ", às " ++ hora ++ " horas, na " ++
  loc ++ ", ocorreu a " ++ toString numero ++
  "ª Reunião Ordinária dos Membros do Comitê de Investimentos. "

/-- The loop body of `item1_single_paragraph` for one roster name:
`texto = (row.get("text") or "").strip(); tema = (row.get("topic") or "").strip();
if texto: partes.append(f"<strong>{prefixo} {nome}</strong> falando sobre {tema}, {texto} ")`. -/
def item1_clause (scenarios : Scenarios) (nome : String) : Option String :=
  let row := scenarioGet scenarios nome
  let texto := pyStrip row.text
  let tema := pyStrip row.topic
  if texto = "" then none
  else some ("<strong>" ++ _prefixo_genero nome ++ " " ++ nome ++
       "</strong> falando sobre " ++ tema ++ ", " ++ texto ++ " ")

/-- The `partes` list built by the `for nome in PARTICIPANTES` loop of
`item1_single_paragraph`, starting from `[intro]`. -/
def item1_partes (intro : String) (scenarios : Scenarios) : List String :=
  PARTICIPANTES.foldl
    (fun partes nome =>
      match item1_clause scenarios nome with
      | some clause => partes ++ [clause]
      | none => partes)
    [intro]

/-- The value of `item1_single_paragraph` once the session date has parsed:
`"<p>" + "".join(partes).strip() + "</p>"`. -/
def item1_body (d : PyDate) (hora loc : String) (numero : Nat)
    (scenarios : Scenarios) : String :=
  "<p>" ++ pyStrip (pyJoin "" (item1_partes (item1_intro d hora loc numero) scenarios)) ++ "</p>"

/-- `item1_single_paragraph(meeting, scenarios)`: parses the session date
first (`ValueError` propagates) and reads `meeting['hora'/'local'/'numero']`
(`KeyError` on an absent key). -/
def item1_single_paragraph (meeting : Meeting) (scenarios : Scenarios) :
    Except String String :=
  match meeting.data with
  | none => .error "KeyError: data"
  | some ds =>
    match date_fromisoformat ds with
    | none => .error "ValueError: Invalid isoformat string"
    | some d =>
      match meeting.hora, meeting.local_, meeting.numero with
      | some hora, some loc, some numero =>
        .ok (item1_body d hora loc numero scenarios)
      | _, _, _ => .error "KeyError"

/-- Paragraph `p0` of item 3 (boilerplate preamble; the inner quotes around
the report name are the literal text intended at source line 1311). -/
def item3_p0 (mes_ano : String) : String :=
  "O Comitê de Investimentos, buscando transmitir maior transparência em relação às análises dos investimentos do Instituto e, em consequência, aderindo às normas do Pró-Gestão, elabora o \"Relatório de Análise de Investimentos IPAJM\". Este relatório já foi encaminhado à SCO – Subgerência de Contabilidade e Orçamento, para posterior envio para análise do Conselho Fiscal do IPAJM. Segue abaixo um resumo relativo aos itens abordados no Relatório supracitado de " ++ mes_ano ++ ":"

/-- Sentence 1 of item 3. -/
def item3_p1 (mes_ano rentab difpp pos : String) : String :=
  "1) Acompanhamento da rentabilidade -  A rentabilidade consolidada dos investimentos do Fundo Previdenciário em " ++ mes_ano ++ " foi de " ++ rentab ++ ", ficando " ++ difpp ++ " p.p. " ++ pos ++ " da meta atuarial."

/-- Sentence 2 of item 3. -/
def item3_p2 (risco : String) : String :=
  "2) Avaliação de risco da carteira - O grau de variação nas rentabilidades está coerente com o grau de risco assumido, em " ++ risco ++ "."

/-- Sentence 3 of item 3. -/
def item3_p3 (mes_ano : String) : String :=
  "3) Execução da Política de Investimentos – As movimentações financeiras realizadas no mês de " ++ mes_ano ++ " estão de acordo com as deliberações estabelecidas com a Diretoria de Investimentos e com a legislação vigente."

/-- Sentence 4 of item 3. -/
def item3_p4 (ano : Int) : String :=
  "4) Aderência a Política de Investimentos - Os recursos investidos, abrangendo a carteira consolidada, que representa o patrimônio total do RPPS sob gestão, estão aderentes à Política de Investimentos de " ++ toString ano ++ ", respeitando o estabelecido na legislação em vigor e dentro dos percentuais definidos.  Considerando que as taxas ainda são negociadas acima da meta atuarial, seguimos com a estratégia de alcançar o alvo definido de 60% de alocação em Títulos Públicos."

/-- The value of `item3_html` once the session date has parsed: the `mes_ano`
reference month is `mes_ano_pt(menos_dois_meses(d))` computed from the session
date `d` (the function has no access to the wall clock), the four summary
parameters come from `state.config` with their source defaults, and the five
paragraphs are joined exactly as the final list comprehension does. -/
def item3_body (d : PyDate) (ano : Int) (cfg : Config) : String :=
  let d2 := menos_dois_meses d
  let mes_ano := mes_ano_pt d2
  let rentab := cfg.resumo_rentab.getD ""
  let difpp := cfg.resumo_difpp.getD ""
  let pos := cfg.resumo_posicao.getD "abaixo"
  let risco := cfg.resumo_risco.getD ""
  let ps := [item3_p0 mes_ano, item3_p1 mes_ano rentab difpp pos,
             item3_p2 risco, item3_p3 mes_ano, item3_p4 ano]
  pyJoin "\n" (ps.enum.map fun it =>
    if it.1 = 0 then "<p><strong>" ++ it.2 ++ "</strong></p>"
    else "<p>" ++ it.2 ++ "</p>")

/-- `item3_html(meeting)`: parses `meeting["data"]` and reads
`meeting['ano']`; the summary values come from the global `state.config`,
passed here explicitly. -/
def item3_html (meeting : Meeting) (cfg : Config) : Except String String :=
  match meeting.data with
  | none => .error "KeyError: data"
  | some ds =>
    match date_fromisoformat ds with
    | none => .error "ValueError: Invalid isoformat string"
    | some d =>
      match meeting.ano with
      | some ano => .ok (item3_body d ano cfg)
      | none => .error "KeyError: ano"

/-- The fixed HTML/PDF header block of `ata_html_full` (`header_html`), with
the two image paths joined from `STATIC_DIR`. -/
def ata_header_html (staticDir : String) : String :=
  let brasao := staticDir ++ "/brasao.png"
  let simbolo := staticDir ++ "/simbolo.png"
  "\n    <div style=\"width:100%; display:flex; align-items:center; justify-content:space-between; margin-bottom:8px;\">\n      <img src=\"" ++ brasao ++ "\" style=\"height:42px\" alt=\"Brasão\"/>\n      <div style=\"text-align:center; font-family: Calibri; font-size:11pt; font-weight:700; color:#000;\">\n        GOVERNO DO ESTADO DO ESPÍRITO SANTO<br/>INSTITUTO DE PREVIDÊNCIA DOS<br/>SERVIDORES DO ESTADO DO ESPÍRITO SANTO\n      </div>\n      <img src=\"" ++ simbolo ++ "\" style=\"height:42px\" alt=\"Símbolo\"/>\n    </div>\n    <div style=\"border-bottom:1px solid #000; margin:2px 0 8px 0; text-align:center;\">IPAJM</div>\n    "

/-- The `blocos` list of `ata_html_full`, given the already-parsed date and
the meeting fields it dereferences. -/
def ata_blocos (d : PyDate) (numero : Nat) (ano : Int)
    (hora loc lavrador : String) (scenarios : Scenarios) (cfg : Config) :
    List String :=
  let numero_fmt := numero_sessao_fmt numero ano
  let presencas_html := pyJoin "<br/>"
    (PARTICIPANTES.map fun p => "<strong>" ++ p ++ "</strong> - " ++ CARGO ++ ";")
  let item2 := cfg.current_item2.getD (cfg.item2_default.getD
    "Não houve realocações de recursos desde a última reunião até a presente data.")
  let assuntos := cfg.current_assuntos.getD (cfg.assuntos_default.getD
    "– Assuntos gerais discutidos e/ou Eventos:")
  let lav := pyStrip lavrador
  [ "<p><strong>Sessão Ordinária nº " ++ numero_fmt ++ "</strong></p>",
    "<p><strong>Data:</strong> " ++ ptbr_date d ++ ".<br/><strong>Hora:</strong> " ++ hora ++ "h.<br/><strong>Local:</strong> " ++ loc ++ ".</p>",
    "<p><strong>Presenças:</strong></p>",
    "<p>" ++ presencas_html ++ "</p>",
    "<p><strong>Ordem do Dia:</strong></p>",
    "<p>1. <strong>Cenário Político e Econômico Interno</strong> e <strong>Cenário Econômico Externo (EUA, Europa e China)</strong>;<br/>2. <strong>Movimentações e Aplicações financeiras</strong>;<br/>3. <strong>Acompanhamento dos Recursos Investidos</strong>;<br/>4. <strong>Assuntos Gerais</strong>.</p>",
    "<p><strong>Item 01 – Cenário Político e Econômico Interno e Cenário Econômico Externo (EUA, Europa e China):</strong></p>",
    item1_body d hora loc numero scenarios,
    "<p><strong>Item 02 – Movimentações e Aplicações financeiras</strong></p>",
    "<p>" ++ item2 ++ "</p>",
    "<p><strong>Item 03 – Acompanhamento dos Recursos Investidos:</strong></p>",
    item3_body d ano cfg,
    "<p><strong>Item 04 – Assuntos Gerais</strong></p>",
    "<p>" ++ assuntos ++ "</p>",
    "<p>Nada mais havendo a tratar, foi encerrada a reunião e eu, " ++
      (if lav ≠ "" then "<strong>" ++ lav ++ "</strong>"
       else "___________________________________") ++
      ", lavrei a presente Ata, assinada pelos membros presentes do Comitê de Investimentos.</p>",
    "<p><strong>" ++ participante1 ++ "</strong>&nbsp;&nbsp;&nbsp;&nbsp;&nbsp;&nbsp;<strong>" ++ participante2 ++ "</strong><br/>" ++ CARGO ++ "&nbsp;&nbsp;&nbsp;&nbsp;&nbsp;&nbsp;" ++ CARGO ++ "</p>",
    "<p><strong>" ++ participante3 ++ "</strong>&nbsp;&nbsp;&nbsp;&nbsp;&nbsp;&nbsp;<strong>" ++ participante4 ++ "</strong><br/>" ++ CARGO ++ "&nbsp;&nbsp;&nbsp;&nbsp;&nbsp;&nbsp;" ++ CARGO ++ "</p>",
    "<p><strong>" ++ participante5 ++ "</strong><br/>" ++ CARGO ++ "</p>" ]

/-- `ata_html_full(meeting, scenarios)`: parses `meeting["data"]` first
(`KeyError` / `ValueError` propagate before any output is built), then
dereferences the remaining keys and returns the header plus the joined
blocks.  The free-text items and summary parameters are read from the
`state.config` mapping, passed here explicitly as `cfg`. -/
def ata_html_full (staticDir : String) (meeting : Meeting)
    (scenarios : Scenarios) (cfg : Config) : Except String String :=
  match meeting.data with
  | none => .error "KeyError: data"
  | some ds =>
    match date_fromisoformat ds with
    | none => .error "ValueError: Invalid isoformat string"
    | some d =>
      match meeting.numero, meeting.ano, meeting.hora, meeting.local_ with
      | some numero, some ano, some hora, some loc =>
        .ok (ata_header_html staticDir ++
          pyJoin "\n" (ata_blocos d numero ano hora loc
            ((meeting.lavrador).getD "") scenarios cfg))
      | _, _, _, _ => .error "KeyError"

/-- The fixed stylesheet wrapper that `export_pdf` puts before the composed
body (HTML handed to the `pisa` HTML-to-PDF pass; CSS braces written as
escapes). -/
def pdf_wrapper_pre : String :=
  "<html><head><meta charset=\x27utf-8\x27>\n      <style>\n        body \x7b \n          font-family: Calibri, Arial, sans-serif; \n          font-size: 11pt; \n          color:#000; \n          line-height: 1.4;\n          margin: 20px;\n        \x7d\n        .content \x7b \n          white-space: normal; \n          text-align: justify; \n        \x7d\n        p \x7b margin: 6pt 0; \x7d\n        strong \x7b font-weight: 700; \x7d\n      </style>\n    </head><body><div class=\"content\">"

/-- `export_pdf`: composes the full ata HTML, wraps it in the fixed
stylesheet document that is handed to the external `pisa` HTML-to-PDF
conversion, and names the download `f"Ata_{numero:03d}-{ano}.pdf"`.
The model returns (HTML document given to the converter, filename). -/
def export_pdf (staticDir : String) (meeting : Meeting)
    (scenarios : Scenarios) (cfg : Config) : Except String (String × String) :=
  (ata_html_full staticDir meeting scenarios cfg).map fun body =>
    (pdf_wrapper_pre ++ body ++ "</div></body></html>",
     "Ata_" ++ format03d ((meeting.numero).getD 1) ++ "-" ++
       toString ((meeting.ano).getD 2024) ++ ".pdf")

/-- One run of a DOCX paragraph: text plus boldness. -/
structure DocxRun where
  text : String
  bold : Bool
deriving DecidableEq, Repr

/-- A DOCX paragraph as its ordered runs. -/
abbrev DocxPara := List DocxRun

/-- The DOCX document body as its ordered paragraphs (the byte stream handed
back by `doc.save` serialises exactly these runs). -/
abbrev DocxDoc := List DocxPara

/-- The paragraphs `export_docx` writes, in order: title, the three
label/value lines, the attendance block, and the agenda.  (The source stops
here: no item 1–4 bodies, closing sentence or signature block are written.) -/
def docx_paragraphs (d : PyDate) (numero : Nat) (ano : Int)
    (hora loc : String) : DocxDoc :=
  [ [⟨"Sessão Ordinária nº " ++ numero_sessao_fmt numero ano, true⟩],
    [⟨"Data: ", true⟩, ⟨ptbr_date d, false⟩],
    [⟨"Hora: ", true⟩, ⟨hora ++ "h", false⟩],
    [⟨"Local: ", true⟩, ⟨loc, false⟩],
    [⟨"Presenças:", true⟩] ]
  ++ PARTICIPANTES.map (fun nome => [⟨nome, false⟩, ⟨" - " ++ CARGO ++ ";", false⟩])
  ++ [ [⟨"Ordem do Dia:", true⟩],
    [⟨"1. Cenário Político e Econômico Interno e Cenário Econômico Externo (EUA, Europa e China);", false⟩],
    [⟨"2. Movimentações e Aplicações financeiras;", false⟩],
    [⟨"3. Acompanhamento dos Recursos Investidos;", false⟩],
    [⟨"4. Assuntos Gerais.", false⟩] ]

/-- `export_docx`: `d = date.fromisoformat(meeting["data"]) if
meeting.get("data") else date.today()` — an absent or empty (falsy) date
field falls back to the wall-clock date `today`; a non-empty date string is
parsed and `ValueError` propagates on failure.  All other meeting fields are
read with defaults (`numero` 1, `ano` `d.year`, `hora` "14:00", `local`
"A definir").  Returns (document paragraphs, download filename). -/
def export_docx (today : PyDate) (meeting : Meeting) :
    Except String (DocxDoc × String) :=
  let build : PyDate → DocxDoc × String := fun d =>
    (docx_paragraphs d ((meeting.numero).getD 1) ((meeting.ano).getD d.year)
       ((meeting.hora).getD "14:00") ((meeting.local_).getD "A definir"),
     "Ata_" ++ format03d ((meeting.numero).getD 1) ++ "-" ++
       toString ((meeting.ano).getD d.year) ++ ".docx")
  match meeting.data with
  | none => .ok (build today)
  | some ds =>
    if ds = "" then .ok (build today)
    else
      match date_fromisoformat ds with
      | none => .error "ValueError: Invalid isoformat string"
      | some d => .ok (build d)

/-- All text of a DOCX document, paragraphs separated by a newline. -/
def docx_text (doc : DocxDoc) : String :=
  pyJoin "\n" (doc.map fun para => pyJoin "" (para.map DocxRun.text))

/-- Substring containment: `pat` occurs contiguously in `s`. -/
def strContains (s pat : String) : Prop :=
  pat.data <:+: s.data

instance (s pat : String) : Decidable (strContains s pat) :=
  List.decidableInfix _ _

/-! Generic facts used to lift substring containment through the
block-by-block structure of the composed documents. -/

theorem str_append_assoc (a b c : String) : a ++ b ++ c = a ++ (b ++ c) :=
  String.ext (by simp [String.data_append])

theorem strContains_of_decomp {s pat : String} (a b : String)
    (h : s = a ++ pat ++ b) : strContains s pat := by
  subst h
  exact ⟨a.data, b.data, by simp [String.data_append]⟩

theorem strContains_append_left {s pat : String} (t : String)
    (h : strContains s pat) : strContains (s ++ t) pat := by
  obtain ⟨u, v, huv⟩ := h
  exact ⟨u, v ++ t.data, by simp [String.data_append, ← huv]⟩

theorem strContains_append_right {s pat : String} (t : String)
    (h : strContains s pat) : strContains (t ++ s) pat := by
  obtain ⟨u, v, huv⟩ := h
  exact ⟨t.data ++ u, v, by simp [String.data_append, ← huv]⟩

theorem strContains_pyJoin {pat b : String} (sep : String) :
    ∀ xs : List String, b ∈ xs → strContains b pat →
      strContains (pyJoin sep xs) pat
  | [], h, _ => absurd h (List.not_mem_nil _)
  | [x], h, hc => by
      rcases List.mem_singleton.mp h with rfl
      simpa [pyJoin] using hc
  | x :: y :: xs, h, hc => by
      rcases List.mem_cons.mp h with rfl | h2
      · exact strContains_append_left _ (strContains_append_left _ hc)
      · exact strContains_append_right (x ++ sep)
          (strContains_pyJoin sep (y :: xs) h2 hc)

/-- Containment in one of the `blocos` lifts to the full composed HTML. -/
theorem strContains_ata {pat b : String} (header : String) (blocos : List String)
    (hb : b ∈ blocos) (hc : strContains b pat) :
    strContains (header ++ pyJoin "\n" blocos) pat :=
  strContains_append_right _ (strContains_pyJoin "\n" blocos hb hc)

/-- The `blocos` list written out flat (the `let` locals of `ata_blocos`
zeta-reduce away); the proof is definitional. -/
theorem ata_blocos_eq (d : PyDate) (numero : Nat) (ano : Int)
    (hora loc lavrador : String) (scenarios : Scenarios) (cfg : Config) :
    ata_blocos d numero ano hora loc lavrador scenarios cfg =
    [ "<p><strong>Sessão Ordinária nº " ++ numero_sessao_fmt numero ano ++ "</strong></p>",
      "<p><strong>Data:</strong> " ++ ptbr_date d ++ ".<br/><strong>Hora:</strong> " ++ hora ++ "h.<br/><strong>Local:</strong> " ++ loc ++ ".</p>",
      "<p><strong>Presenças:</strong></p>",
      "<p>" ++ pyJoin "<br/>" (PARTICIPANTES.map fun p => "<strong>" ++ p ++ "</strong> - " ++ CARGO ++ ";") ++ "</p>",
      "<p><strong>Ordem do Dia:</strong></p>",
      "<p>1. <strong>Cenário Político e Econômico Interno</strong> e <strong>Cenário Econômico Externo (EUA, Europa e China)</strong>;<br/>2. <strong>Movimentações e Aplicações financeiras</strong>;<br/>3. <strong>Acompanhamento dos Recursos Investidos</strong>;<br/>4. <strong>Assuntos Gerais</strong>.</p>",
      "<p><strong>Item 01 – Cenário Político e Econômico Interno e Cenário Econômico Externo (EUA, Europa e China):</strong></p>",
      item1_body d hora loc numero scenarios,
      "<p><strong>Item 02 – Movimentações e Aplicações financeiras</strong></p>",
      "<p>" ++ cfg.current_item2.getD (cfg.item2_default.getD "Não houve realocações de recursos desde a última reunião até a presente data.") ++ "</p>",
      "<p><strong>Item 03 – Acompanhamento dos Recursos Investidos:</strong></p>",
      item3_body d ano cfg,
      "<p><strong>Item 04 – Assuntos Gerais</strong></p>",
      "<p>" ++ cfg.current_assuntos.getD (cfg.assuntos_default.getD "– Assuntos gerais discutidos e/ou Eventos:") ++ "</p>",
      "<p>Nada mais havendo a tratar, foi encerrada a reunião e eu, " ++
        (if pyStrip lavrador ≠ "" then "<strong>" ++ pyStrip lavrador ++ "</strong>"
         else "___________________________________") ++
        ", lavrei a presente Ata, assinada pelos membros presentes do Comitê de Investimentos.</p>",
      "<p><strong>" ++ participante1 ++ "</strong>&nbsp;&nbsp;&nbsp;&nbsp;&nbsp;&nbsp;<strong>" ++ participante2 ++ "</strong><br/>" ++ CARGO ++ "&nbsp;&nbsp;&nbsp;&nbsp;&nbsp;&nbsp;" ++ CARGO ++ "</p>",
      "<p><strong>" ++ participante3 ++ "</strong>&nbsp;&nbsp;&nbsp;&nbsp;&nbsp;&nbsp;<strong>" ++ participante4 ++ "</strong><br/>" ++ CARGO ++ "&nbsp;&nbsp;&nbsp;&nbsp;&nbsp;&nbsp;" ++ CARGO ++ "</p>",
      "<p><strong>" ++ participante5 ++ "</strong><br/>" ++ CARGO ++ "</p>" ] := rfl

/-- The five item-3 paragraphs written out flat: the reference month of every
interpolation is `mes_ano_pt (menos_dois_meses d)` computed from the session
date `d`, and the summary parameters are the `state.config` strings spliced
verbatim; the proof is definitional. -/
theorem item3_body_eq (d : PyDate) (ano : Int) (cfg : Config) :
    item3_body d ano cfg = pyJoin "\n"
      [ "<p><strong>" ++ item3_p0 (mes_ano_pt (menos_dois_meses d)) ++ "</strong></p>",
        "<p>" ++ item3_p1 (mes_ano_pt (menos_dois_meses d)) (cfg.resumo_rentab.getD "")
          (cfg.resumo_difpp.getD "") (cfg.resumo_posicao.getD "abaixo") ++ "</p>",
        "<p>" ++ item3_p2 (cfg.resumo_risco.getD "") ++ "</p>",
        "<p>" ++ item3_p3 (mes_ano_pt (menos_dois_meses d)) ++ "</p>",
        "<p>" ++ item3_p4 ano ++ "</p>" ] := rfl

/-! Claim theorems. -/

theorem daysInMonth_ge_28 (y : Int) (m : Nat) : 28 ≤ daysInMonth y m := by
  unfold daysInMonth
  split
  · split <;> omega
  · split <;> omega

/-- C5 (amended): for every valid calendar date `d` that is not in
January or February of year 1, `menos_dois_meses d` subtracts 2 from the
month — borrowing one year when the result would be ≤ 0 — and clamps the day
to `min day 28`, and the resulting triple satisfies the Python `date`
invariant (the constructor succeeds); in particular the two spec examples
hold.  (For January/February of year 1 the borrow produces year 0, below
Python's `MINYEAR`, and `date(y, m, dia)` raises instead — see the
counterexample.) -/
theorem menos_dois_meses_ok (d : PyDate) (hv : d.Valid)
    (h2 : 3 ≤ d.month ∨ 2 ≤ d.year) :
    (menos_dois_meses d).Valid ∧
    (menos_dois_meses d).day = min d.day 28 ∧
    (3 ≤ d.month →
      (menos_dois_meses d).month = d.month - 2 ∧
      (menos_dois_meses d).year = d.year) ∧
    (d.month < 3 →
      (menos_dois_meses d).month = d.month + 10 ∧
      (menos_dois_meses d).year = d.year - 1) ∧
    menos_dois_meses ⟨2025, 1, 15⟩ = ⟨2024, 11, 15⟩ ∧
    menos_dois_meses ⟨2025, 3, 31⟩ = ⟨2025, 1, 28⟩ := by
  obtain ⟨hy1, hy2, hm1, hm2, hd1, hd2⟩ := hv
  have hd28 : min d.day 28 ≤ 28 := Nat.min_le_right _ _
  have hd1' : 1 ≤ min d.day 28 := le_min hd1 (by omega)
  by_cases h3 : 3 ≤ d.month
  · have hcond : ¬((d.month : Int) - 2 ≤ 0) := by omega
    have hmonth : (menos_dois_meses d).month = d.month - 2 := by
      simp only [menos_dois_meses, if_neg hcond]
      omega
    have hyear : (menos_dois_meses d).year = d.year := by
      simp only [menos_dois_meses, if_neg hcond]
    have hday : (menos_dois_meses d).day = min d.day 28 := by
      simp only [menos_dois_meses, if_neg hcond]
    have hvalid : (menos_dois_meses d).Valid := by
      unfold PyDate.Valid
      rw [hmonth, hyear, hday]
      exact ⟨hy1, hy2, by omega, by omega, hd1',
        le_trans hd28 (daysInMonth_ge_28 _ _)⟩
    exact ⟨hvalid, hday, fun _ => ⟨hmonth, hyear⟩,
      fun h => absurd h3 (by omega), by decide, by decide⟩
  · have hy2' : 2 ≤ d.year := h2.resolve_left h3
    have hcond : (d.month : Int) - 2 ≤ 0 := by omega
    have hmonth : (menos_dois_meses d).month = d.month + 10 := by
      simp only [menos_dois_meses, if_pos hcond]
      omega
    have hyear : (menos_dois_meses d).year = d.year - 1 := by
      simp only [menos_dois_meses, if_pos hcond]
    have hday : (menos_dois_meses d).day = min d.day 28 := by
      simp only [menos_dois_meses, if_pos hcond]
    have hvalid : (menos_dois_meses d).Valid := by
      unfold PyDate.Valid
      rw [hmonth, hyear, hday]
      exact ⟨by omega, by omega, by omega, by omega, hd1',
        le_trans hd28 (daysInMonth_ge_28 _ _)⟩
    exact ⟨hvalid, hday, fun h => absurd h h3, fun _ => ⟨hmonth, hyear⟩,
      by decide, by decide⟩

/-- Witness for C5 at the concrete date 2025-01-15. -/
theorem menos_dois_meses_ok_witness :
    (menos_dois_meses ⟨2025, 1, 15⟩).Valid ∧
    menos_dois_meses ⟨2025, 1, 15⟩ = ⟨2024, 11, 15⟩ :=
  ⟨(menos_dois_meses_ok ⟨2025, 1, 15⟩ (by decide) (Or.inr (by decide))).1,
   (menos_dois_meses_ok ⟨2025, 1, 15⟩ (by decide) (Or.inr (by decide))).2.2.2.2.1⟩

/-- C5 counterexample to the unrestricted claim: 15 January of year 1 is a
valid Python date, but `menos_dois_meses` borrows into year 0, outside the
`date` range, so `date(y, m, dia)` raises `ValueError` rather than returning
a valid calendar day. -/
theorem menos_dois_meses_underflow :
    PyDate.Valid ⟨1, 1, 15⟩ ∧ ¬(menos_dois_meses ⟨1, 1, 15⟩).Valid := by
  decide

/-- C8: the honorific resolver returns "A Sra." exactly for members of the
fixed feminine-honorific set and "O Sr." for every other string, so unknown
names default to the masculine prefix. -/
theorem prefixo_genero_spec (nome : String) :
    (_prefixo_genero nome = "A Sra." ↔ nome ∈ PARTICIPANTES_MULHERES) ∧
    (_prefixo_genero nome = "O Sr." ↔ nome ∉ PARTICIPANTES_MULHERES) := by
  unfold _prefixo_genero
  by_cases h : nome ∈ PARTICIPANTES_MULHERES
  · rw [if_pos (List.elem_iff.mpr h)]
    refine ⟨⟨fun _ => h, fun _ => rfl⟩, ⟨fun he => absurd he (by decide), fun hn => absurd h hn⟩⟩
  · rw [if_neg (fun hc => h (List.elem_iff.mp hc))]
    refine ⟨⟨fun he => absurd he (by decide), fun hm => absurd hm h⟩, ⟨fun _ => h, fun _ => rfl⟩⟩

/-- The session record of the end-to-end spec scenario. -/
def demoMeeting : Meeting :=
  ⟨some 4, some 2025, some "2025-05-01", some "14:00", some "Sala 408", some ""⟩

/-- The scenario collection of the end-to-end spec scenario: one entry for
the first roster participant, topic "CHINA", text "Mercado estável.". -/
def demoScenarios : Scenarios :=
  [(participante1, ⟨"Mercado estável.", "CHINA"⟩)]

/-- The config of the end-to-end spec scenario: empty item-2/item-4 texts and
the four summary parameters. -/
def demoConfig : Config :=
  ⟨some "", none, some "", none, some "1,23%", some "0,15", some "abaixo", some "7,5%"⟩

/-- The `for nome in PARTICIPANTES` append loop is a `filterMap`. -/
theorem item1_foldl_eq (scenarios : Scenarios) :
    ∀ (names : List String) (acc : List String),
      names.foldl (fun partes nome =>
        match item1_clause scenarios nome with
        | some clause => partes ++ [clause]
        | none => partes) acc
      = acc ++ names.filterMap (item1_clause scenarios)
  | [], acc => by simp
  | nome :: names, acc => by
      simp only [List.foldl_cons, List.filterMap_cons]
      cases h : item1_clause scenarios nome with
      | none => simpa [h] using item1_foldl_eq scenarios names acc
      | some c => simp [h, item1_foldl_eq scenarios names (acc ++ [c])]

/-- C4: the item-1 paragraph parts are the intro sentence followed by, for
each roster participant in roster order, exactly one clause
`<strong>{prefix} {name}</strong> falando sobre {topic}, {text} ` when the
participant's stripped scenario text is non-empty (the prefix+name inside
the bold `<strong>` run, the rest plain), and nothing at all when it is
empty — which is also what an absent scenario entry yields, since
`scenarioGet` defaults it to empty text/topic. -/
theorem item1_clauses_spec (intro : String) (scenarios : Scenarios) :
    item1_partes intro scenarios =
      intro :: PARTICIPANTES.filterMap (item1_clause scenarios) ∧
    (∀ nome, pyStrip (scenarioGet scenarios nome).text = "" →
      item1_clause scenarios nome = none) ∧
    (∀ nome, pyStrip (scenarioGet scenarios nome).text ≠ "" →
      item1_clause scenarios nome = some ("<strong>" ++ _prefixo_genero nome ++
        " " ++ nome ++ "</strong> falando sobre " ++
        pyStrip (scenarioGet scenarios nome).topic ++ ", " ++
        pyStrip (scenarioGet scenarios nome).text ++ " ")) ∧
    (∀ nome, scenarios.lookup nome = none →
      item1_clause scenarios nome = none) := by
  refine ⟨?_, ?_, ?_, ?_⟩
  · unfold item1_partes
    rw [item1_foldl_eq]
    rfl
  · intro nome h
    simp [item1_clause, h]
  · intro nome h
    simp [item1_clause, h]
  · intro nome h
    simp [item1_clause, scenarioGet, h, pyStrip, isPySpace]

/-- Witness for C4: in the demo scenario the second participant (no entry,
hence empty text) contributes nothing, while the first contributes exactly
one clause. -/
theorem item1_clauses_spec_witness :
    item1_clause demoScenarios participante2 = none ∧
    item1_clause demoScenarios participante1 =
      some "<strong>O Sr. Albert Iglésia Correa dos Santos Júnior</strong> falando sobre CHINA, Mercado estável. " :=
  ⟨(item1_clauses_spec "" demoScenarios).2.1 participante2 (by decide),
   ((item1_clauses_spec "" demoScenarios).2.2.1 participante1 (by decide)).trans
     (by decide)⟩

/-- C9: whether a participant's clause appears depends only on the stripped
scenario text — two collections giving the participant the same stripped
text agree on inclusion, whatever the topics (so whitespace-only text is
skipped like empty text) — and a participant with non-empty text but an
empty topic is still rendered, the clause reading `… falando sobre , …`
around the vanished topic. -/
theorem item1_inclusion_text_only :
    (∀ (s₁ s₂ : Scenarios) (nome : String),
      pyStrip (scenarioGet s₁ nome).text = pyStrip (scenarioGet s₂ nome).text →
      ((item1_clause s₁ nome).isSome ↔ (item1_clause s₂ nome).isSome)) ∧
    (∀ (s : Scenarios) (nome : String),
      pyStrip (scenarioGet s nome).text = "" → item1_clause s nome = none) ∧
    (∀ (s : Scenarios) (nome : String),
      (scenarioGet s nome).topic = "" → pyStrip (scenarioGet s nome).text ≠ "" →
      item1_clause s nome = some ("<strong>" ++ _prefixo_genero nome ++ " " ++
        nome ++ "</strong> falando sobre , " ++
        pyStrip (scenarioGet s nome).text ++ " ")) := by
  refine ⟨?_, ?_, ?_⟩
  · intro s₁ s₂ nome h
    by_cases he : pyStrip (scenarioGet s₂ nome).text = ""
    · simp [item1_clause, he, h.trans he]
    · have h1 : ¬pyStrip (scenarioGet s₁ nome).text = "" := fun hc => he (h.symm.trans hc)
      simp [item1_clause, he, h1]
  · intro s nome h
    simp [item1_clause, h]
  · intro s nome htopic htext
    have hstrip : pyStrip (scenarioGet s nome).topic = "" := by rw [htopic]; rfl
    simp only [item1_clause, hstrip, if_neg htext]
    rw [String.append_empty]
    rw [str_append_assoc ("<strong>" ++ _prefixo_genero nome ++ " " ++ nome)
      "</strong> falando sobre " ", "]
    rw [show ("</strong> falando sobre " ++ ", " : String) =
      "</strong> falando sobre , " from by decide]

/-- Witness for C9: whitespace-only text is skipped, and in a collection
giving the first participant text but an empty topic the clause carries the
stray `falando sobre , `. -/
theorem item1_inclusion_text_only_witness :
    item1_clause [(participante1, ⟨"   ", "CHINA"⟩)] participante1 = none ∧
    item1_clause [(participante1, ⟨"Mercado estável.", ""⟩)] participante1 =
      some "<strong>O Sr. Albert Iglésia Correa dos Santos Júnior</strong> falando sobre , Mercado estável. " :=
  ⟨item1_inclusion_text_only.2.1 [(participante1, ⟨"   ", "CHINA"⟩)]
     participante1 (by decide),
   (item1_inclusion_text_only.2.2 [(participante1, ⟨"Mercado estável.", ""⟩)]
     participante1 (by decide) (by decide)).trans (by decide)⟩

/-- C2: the composition of the full ata HTML is a pure function of the
session record, the scenario collection and the config record holding the
free-text items and summary parameters (plus the process-constant static
directory): it is a total Lean function of exactly these arguments — it can
read no other state and perform no writes — so two composition calls on
identical inputs return byte-identical documents. -/
theorem ata_html_full_deterministic (sd sd' : String) (m m' : Meeting)
    (s s' : Scenarios) (c c' : Config)
    (hsd : sd = sd') (hm : m = m') (hs : s = s') (hc : c = c') :
    ata_html_full sd m s c = ata_html_full sd' m' s' c' := by
  subst hsd; subst hm; subst hs; subst hc; rfl

/-- Witness for C2 at the demo inputs. -/
theorem ata_html_full_deterministic_witness :
    ata_html_full "static" demoMeeting demoScenarios demoConfig =
      ata_html_full "static" demoMeeting demoScenarios demoConfig :=
  ata_html_full_deterministic "static" "static" demoMeeting demoMeeting
    demoScenarios demoScenarios demoConfig demoConfig rfl rfl rfl rfl

/-- C7: for a session record with a parseable date, `item3_html` succeeds
and its five paragraphs interpolate, wherever a reference month appears,
exactly `mes_ano_pt (menos_dois_meses d)` computed from the session's own
parsed date `d` — no wall-clock date is even an input of the function — and
splice the four summary parameters (with their `state.config` defaults) into
the sentence templates as literal strings, with no numeric parsing,
formatting or validation (see `item3_p1`, `item3_p2`: plain concatenation). -/
theorem item3_spec (meeting : Meeting) (cfg : Config) (ds : String)
    (d : PyDate) (a : Int) (hd : meeting.data = some ds)
    (hp : date_fromisoformat ds = some d) (ha : meeting.ano = some a) :
    item3_html meeting cfg = .ok (item3_body d a cfg) ∧
    item3_body d a cfg = pyJoin "\n"
      [ "<p><strong>" ++ item3_p0 (mes_ano_pt (menos_dois_meses d)) ++ "</strong></p>",
        "<p>" ++ item3_p1 (mes_ano_pt (menos_dois_meses d)) (cfg.resumo_rentab.getD "")
          (cfg.resumo_difpp.getD "") (cfg.resumo_posicao.getD "abaixo") ++ "</p>",
        "<p>" ++ item3_p2 (cfg.resumo_risco.getD "") ++ "</p>",
        "<p>" ++ item3_p3 (mes_ano_pt (menos_dois_meses d)) ++ "</p>",
        "<p>" ++ item3_p4 a ++ "</p>" ] :=
  ⟨by simp [item3_html, hd, hp, ha], item3_body_eq d a cfg⟩

/-- Witness for C7 at the demo session (date 2025-05-01, D-2 = March 2025). -/
theorem item3_spec_witness :
    item3_html demoMeeting demoConfig = .ok (item3_body ⟨2025, 5, 1⟩ 2025 demoConfig) ∧
    mes_ano_pt (menos_dois_meses ⟨2025, 5, 1⟩) = "março de 2025" :=
  ⟨(item3_spec demoMeeting demoConfig "2025-05-01" ⟨2025, 5, 1⟩ 2025 rfl
      (by decide) rfl).1,
   by decide⟩

/-- C6: for a session record with `numero` in the accepted range 1..9999
(and the fields the renderers dereference present, with a parseable date),
the composed HTML contains the title `Sessão Ordinária nº {numero:03d}/{ano}`
and the PDF and DOCX downloads are named `Ata_{numero:03d}-{ano}.<ext>`;
`format03d` is the 3-digit zero padding of `f"{n:03d}"`. -/
theorem session_number_format (sd : String) (m : Meeting) (s : Scenarios)
    (c : Config) (n : Nat) (a : Int) (ds : String) (d : PyDate) (today : PyDate)
    (hn : m.numero = some n) (ha : m.ano = some a) (hd : m.data = some ds)
    (hp : date_fromisoformat ds = some d) (hh : m.hora.isSome = true)
    (hl : m.local_.isSome = true) (hn1 : 1 ≤ n) (hn2 : n ≤ 9999) :
    (∃ html, ata_html_full sd m s c = .ok html ∧
      strContains html ("Sessão Ordinária nº " ++ format03d n ++ "/" ++ toString a)) ∧
    (∃ pdf, export_pdf sd m s c = .ok pdf ∧
      pdf.2 = "Ata_" ++ format03d n ++ "-" ++ toString a ++ ".pdf") ∧
    (∃ docx, export_docx today m = .ok docx ∧
      docx.2 = "Ata_" ++ format03d n ++ "-" ++ toString a ++ ".docx") := by
  obtain ⟨hora, hhora⟩ := Option.isSome_iff_exists.mp hh
  obtain ⟨loc, hloc⟩ := Option.isSome_iff_exists.mp hl
  have hhtml : ata_html_full sd m s c = .ok (ata_header_html sd ++
      pyJoin "\n" (ata_blocos d n a hora loc ((m.lavrador).getD "") s c)) := by
    simp [ata_html_full, hd, hp, hn, ha, hhora, hloc]
  have hb0 : "<p><strong>Sessão Ordinária nº " ++ numero_sessao_fmt n a ++ "</strong></p>" =
      "<p><strong>" ++ ("Sessão Ordinária nº " ++ format03d n ++ "/" ++ toString a) ++
        "</strong></p>" := by
    rw [show ("<p><strong>Sessão Ordinária nº " : String) =
      "<p><strong>" ++ "Sessão Ordinária nº " from by decide]
    unfold numero_sessao_fmt
    apply String.ext
    simp [String.data_append]
  have hne : ds ≠ "" := by
    intro h0
    rw [h0, show date_fromisoformat "" = none from rfl] at hp
    exact Option.noConfusion hp
  have hpdf : export_pdf sd m s c = .ok
      (pdf_wrapper_pre ++ (ata_header_html sd ++
         pyJoin "\n" (ata_blocos d n a hora loc ((m.lavrador).getD "") s c)) ++
         "</div></body></html>",
       "Ata_" ++ format03d n ++ "-" ++ toString a ++ ".pdf") := by
    simp only [export_pdf, hhtml, Except.map, hn, ha]
    rfl
  have hdocx : export_docx today m = .ok
      (docx_paragraphs d n a ((m.hora).getD "14:00") ((m.local_).getD "A definir"),
       "Ata_" ++ format03d n ++ "-" ++ toString a ++ ".docx") := by
    simp only [export_docx, hd, if_neg hne, hp, hn, ha]
    rfl
  exact ⟨⟨_, hhtml, strContains_ata _ _
      (by rw [ata_blocos_eq]; exact List.mem_cons_self _ _)
      (strContains_of_decomp _ _ hb0)⟩,
    ⟨_, hpdf, rfl⟩, ⟨_, hdocx, rfl⟩⟩

/-- Witness for C6 at the demo session record. -/
theorem session_number_format_witness :
    ∃ html, ata_html_full "static" demoMeeting demoScenarios demoConfig = .ok html ∧
      strContains html ("Sessão Ordinária nº " ++ format03d 4 ++ "/" ++ toString (2025 : Int)) :=
  (session_number_format "static" demoMeeting demoScenarios demoConfig 4 2025
    "2025-05-01" ⟨2025, 5, 1⟩ ⟨2025, 9, 1⟩ rfl rfl rfl (by decide) rfl rfl
    (by decide) (by decide)).1

/-- C3 counterexample: the empty date string fails to parse (Python
`date.fromisoformat("")` raises `ValueError`), yet the DOCX export does not
reject the record — it falls back to the wall-clock date and produces a full
document, so not every render entry point rejects every unparseable date. -/
theorem docx_accepts_empty_date :
    date_fromisoformat "" = none ∧
    (export_docx ⟨2025, 9, 1⟩
      ⟨some 4, some 2025, some "", some "14:00", some "Sala 408", some ""⟩).isOk = true := by
  decide

/-- C3 (amended): for a session record whose date string is non-empty and
fails to parse, all three render entry points fail — the `ValueError`
propagates and no (partial) output is returned; the DOCX export, however,
treats an absent or empty date string as the wall-clock date instead of
rejecting it (see the counterexample and C10). -/
theorem render_rejects_malformed_date (sd : String) (m : Meeting)
    (s : Scenarios) (c : Config) (ds : String) (today : PyDate)
    (hd : m.data = some ds) (hne : ds ≠ "")
    (hp : date_fromisoformat ds = none) :
    (ata_html_full sd m s c).isOk = false ∧
    (export_pdf sd m s c).isOk = false ∧
    (export_docx today m).isOk = false := by
  have h1 : ata_html_full sd m s c = .error "ValueError: Invalid isoformat string" := by
    simp [ata_html_full, hd, hp]
  refine ⟨by rw [h1]; rfl, ?_, ?_⟩
  · simp only [export_pdf, h1, Except.map]
    rfl
  · simp only [export_docx, hd, if_neg hne, hp]
    rfl

/-- Witness for C3 at a concrete malformed date. -/
theorem render_rejects_malformed_date_witness :
    (ata_html_full "static"
      ⟨some 4, some 2025, some "not-a-date", some "14:00", some "Sala 408", some ""⟩
      demoScenarios demoConfig).isOk = false :=
  (render_rejects_malformed_date "static"
    ⟨some 4, some 2025, some "not-a-date", some "14:00", some "Sala 408", some ""⟩
    demoScenarios demoConfig "not-a-date" ⟨2025, 9, 1⟩ rfl (by decide) (by decide)).1

/-- C10 counterexample: a present but malformed (non-empty) date string is
not replaced by a default — `date.fromisoformat` raises and the DOCX export
fails, so it is not true that a DOCX byte stream is always produced. -/
theorem docx_fails_on_malformed_date :
    (export_docx ⟨2025, 9, 1⟩
      ⟨some 4, some 2025, some "x", some "14:00", some "Sala 408", some ""⟩).isOk = false := by
  decide

/-- C10 (amended): the DOCX export never fails on an *incomplete* record —
whenever the date field is absent, empty, or parseable it returns a
document, and when the date is absent or empty it builds the document from
the wall-clock date `today` with the defaults `numero = 1`,
`ano = today.year`, `hora = "14:00"`, `local = "A definir"` for missing
fields; only a present-but-malformed date string still fails. -/
theorem export_docx_fallback (today : PyDate) (m : Meeting)
    (h : m.data = none ∨ m.data = some "" ∨
      ∃ d, date_fromisoformat ((m.data).getD "") = some d) :
    (export_docx today m).isOk = true ∧
    ((m.data = none ∨ m.data = some "") →
      export_docx today m = .ok
        (docx_paragraphs today ((m.numero).getD 1) ((m.ano).getD today.year)
          ((m.hora).getD "14:00") ((m.local_).getD "A definir"),
         "Ata_" ++ format03d ((m.numero).getD 1) ++ "-" ++
           toString ((m.ano).getD today.year) ++ ".docx")) := by
  rcases h with h0 | h0 | ⟨d, hd⟩
  · exact ⟨by simp only [export_docx, h0]; rfl,
      fun _ => by simp only [export_docx, h0]⟩
  · exact ⟨by simp only [export_docx, h0]; rfl,
      fun _ => by simp only [export_docx, h0]; rfl⟩
  · cases hds : m.data with
    | none =>
      exact ⟨by simp only [export_docx, hds]; rfl,
        fun _ => by simp only [export_docx, hds]⟩
    | some ds =>
      rw [hds] at hd
      simp only [Option.getD_some] at hd
      by_cases he : ds = ""
      · subst he
        exact ⟨by simp only [export_docx, hds]; rfl,
          fun _ => by simp only [export_docx, hds]; rfl⟩
      · refine ⟨by simp only [export_docx, hds, if_neg he, hd]; rfl, fun hc => ?_⟩
        exfalso
        rcases hc with hc | hc <;> simp_all

/-- Witness for C10: an entirely empty meeting record still yields a DOCX. -/
theorem export_docx_fallback_witness :
    (export_docx ⟨2025, 9, 1⟩ ⟨none, none, none, none, none, none⟩).isOk = true :=
  (export_docx_fallback ⟨2025, 9, 1⟩ ⟨none, none, none, none, none, none⟩
    (Or.inl rfl)).1

/-- C1 evaluated at the end-to-end scenario (session 004/2025, date
2025-05-01, 14:00, "Sala 408"; one scenario entry for the first roster
participant, topic "CHINA", text "Mercado estável."; empty item-2/item-4;
summary 1,23% / 0,15 / abaixo / 7,5%): the HTML preview body and the HTML
document handed to the PDF converter each contain the title
"Sessão Ordinária nº 004/2025", the bolded first-participant clause
"<strong>O Sr. …</strong> falando sobre CHINA, Mercado estável." and the
item-3 fragment "ficando 0,15 p.p. abaixo da meta atuarial."; the DOCX
export, which stops after the agenda block, contains the title but NEITHER
the scenario clause NOR the item-3 fragment — the claim fails on the DOCX
output. -/
theorem end_to_end_scenario :
    (∃ html, ata_html_full "static" demoMeeting demoScenarios demoConfig = .ok html ∧
      strContains html "Sessão Ordinária nº 004/2025" ∧
      strContains html "<strong>O Sr. Albert Iglésia Correa dos Santos Júnior</strong> falando sobre CHINA, Mercado estável." ∧
      strContains html "ficando 0,15 p.p. abaixo da meta atuarial.") ∧
    (∃ pdf, export_pdf "static" demoMeeting demoScenarios demoConfig = .ok pdf ∧
      strContains pdf.1 "Sessão Ordinária nº 004/2025" ∧
      strContains pdf.1 "<strong>O Sr. Albert Iglésia Correa dos Santos Júnior</strong> falando sobre CHINA, Mercado estável." ∧
      strContains pdf.1 "ficando 0,15 p.p. abaixo da meta atuarial.") ∧
    (∃ docx, export_docx ⟨2025, 9, 1⟩ demoMeeting = .ok docx ∧
      strContains (docx_text docx.1) "Sessão Ordinária nº 004/2025" ∧
      ¬strContains (docx_text docx.1) "falando sobre CHINA, Mercado estável." ∧
      ¬strContains (docx_text docx.1) "ficando 0,15 p.p. abaixo da meta atuarial.") := by
  have hhtml : ata_html_full "static" demoMeeting demoScenarios demoConfig =
      .ok (ata_header_html "static" ++ pyJoin "\n"
        (ata_blocos ⟨2025, 5, 1⟩ 4 2025 "14:00" "Sala 408" "" demoScenarios demoConfig)) := rfl
  have hc1 : strContains
      ("<p><strong>Sessão Ordinária nº " ++ numero_sessao_fmt 4 2025 ++ "</strong></p>")
      "Sessão Ordinária nº 004/2025" := by decide
  have hc2 : strContains (item1_body ⟨2025, 5, 1⟩ "14:00" "Sala 408" 4 demoScenarios)
      "<strong>O Sr. Albert Iglésia Correa dos Santos Júnior</strong> falando sobre CHINA, Mercado estável." := by
    decide
  have hc3 : strContains (item3_body ⟨2025, 5, 1⟩ 2025 demoConfig)
      "ficando 0,15 p.p. abaixo da meta atuarial." := by
    rw [item3_body_eq]
    refine strContains_pyJoin "\n" _
      (List.mem_cons_of_mem _ (List.mem_cons_self _ _)) ?_
    decide
  have hm1 : "<p><strong>Sessão Ordinária nº " ++ numero_sessao_fmt 4 2025 ++ "</strong></p>" ∈
      ata_blocos ⟨2025, 5, 1⟩ 4 2025 "14:00" "Sala 408" "" demoScenarios demoConfig := by
    rw [ata_blocos_eq]
    exact List.mem_cons_self _ _
  have hm2 : item1_body ⟨2025, 5, 1⟩ "14:00" "Sala 408" 4 demoScenarios ∈
      ata_blocos ⟨2025, 5, 1⟩ 4 2025 "14:00" "Sala 408" "" demoScenarios demoConfig := by
    rw [ata_blocos_eq]
    exact List.mem_cons_of_mem _ (List.mem_cons_of_mem _ (List.mem_cons_of_mem _
      (List.mem_cons_of_mem _ (List.mem_cons_of_mem _ (List.mem_cons_of_mem _
        (List.mem_cons_of_mem _ (List.mem_cons_self _ _)))))))
  have hm3 : item3_body ⟨2025, 5, 1⟩ 2025 demoConfig ∈
      ata_blocos ⟨2025, 5, 1⟩ 4 2025 "14:00" "Sala 408" "" demoScenarios demoConfig := by
    rw [ata_blocos_eq]
    exact List.mem_cons_of_mem _ (List.mem_cons_of_mem _ (List.mem_cons_of_mem _
      (List.mem_cons_of_mem _ (List.mem_cons_of_mem _ (List.mem_cons_of_mem _
        (List.mem_cons_of_mem _ (List.mem_cons_of_mem _ (List.mem_cons_of_mem _
          (List.mem_cons_of_mem _ (List.mem_cons_of_mem _ (List.mem_cons_self _ _)))))))))))
  have hpdf : export_pdf "static" demoMeeting demoScenarios demoConfig =
      .ok (pdf_wrapper_pre ++ (ata_header_html "static" ++ pyJoin "\n"
          (ata_blocos ⟨2025, 5, 1⟩ 4 2025 "14:00" "Sala 408" "" demoScenarios demoConfig)) ++
          "</div></body></html>",
        "Ata_004-2025.pdf") := by
    simp only [export_pdf, hhtml, Except.map]
    rfl
  have hdocx : export_docx ⟨2025, 9, 1⟩ demoMeeting =
      .ok (docx_paragraphs ⟨2025, 5, 1⟩ 4 2025 "14:00" "Sala 408", "Ata_004-2025.docx") := rfl
  refine ⟨⟨_, hhtml, strContains_ata _ _ hm1 hc1, strContains_ata _ _ hm2 hc2,
      strContains_ata _ _ hm3 hc3⟩,
    ⟨_, hpdf,
      strContains_append_left _ (strContains_append_right _ (strContains_ata _ _ hm1 hc1)),
      strContains_append_left _ (strContains_append_right _ (strContains_ata _ _ hm2 hc2)),
      strContains_append_left _ (strContains_append_right _ (strContains_ata _ _ hm3 hc3))⟩,
    ⟨_, hdocx, ?_, ?_, ?_⟩⟩
  · decide
  · decide
  · decide

end Atas
